import Mathlib

/-!
Verification of the Nexus Go SDK HTTP server layer (`src/nexus/server.go`).

The server's response-writing functions are embedded as pure Lean functions
that produce an ordered trace of `Event`s performed on the HTTP response
writer (header sets, the status line, body writes) together with the log
records emitted.  Types and constants that the server file references but
that are declared elsewhere in the repository (`Failure`, `Stream`,
`OperationState`, the status-code and header-name constants, JSON
serialisation) are modelled from the spec and marked as such.
-/

namespace NexusVerify

/-- A structured logger handle (Go `*slog.Logger`).  Only the identity of the
logger matters for the properties verified here, so it is modelled as an
opaque id. -/
structure Logger where
  id : Nat
deriving DecidableEq, Repr

/-- Modelled from the spec: the process-wide default logger, Go
`slog.Default()`. -/
def slogDefault : Logger := ⟨0⟩

/-- Modelled from the spec (§6 Headers): the `Content-Type` header name,
constant `headerContentType` declared outside `src/`. -/
def headerContentType : String := "Content-Type"

/-- Modelled from the spec (§6 Headers): the JSON content type, constant
`contentTypeJSON` declared outside `src/`. -/
def contentTypeJSON : String := "application/json"

/-- Modelled from the spec (§6 Headers): the `Nexus-Operation-State` header
name, constant `headerOperationState` declared outside `src/`. -/
def headerOperationState : String := "Nexus-Operation-State"

/-- Modelled from the spec (§6 status table): status 424, operation completed
unsuccessfully; constant `statusOperationFailed` declared outside `src/`. -/
def statusOperationFailed : Nat := 424

/-- Modelled from the spec (§6 status table): status 412, operation still
running; constant `statusOperationRunning` declared outside `src/`. -/
def statusOperationRunning : Nat := 412

/-- Modelled from the spec (§3): operation states are lowercase string
literals; `OperationState` is a string type declared outside `src/`. -/
def operationStateRunning : String := "running"

/-- Modelled from the spec (§3): the terminal `failed` state literal. -/
def operationStateFailed : String := "failed"

/-- Modelled from the spec (§3): the terminal `canceled` state literal. -/
def operationStateCanceled : String := "canceled"

/-- `HandlerErrorType` constant (src/nexus/server.go:99). -/
def handlerErrorTypeOperationCanceled : String := "OPERATION_CANCELED"

/-- `HandlerErrorType` constant (src/nexus/server.go:101). -/
def handlerErrorTypeOperationFailed : String := "OPERATION_FAILED"

/-- `HandlerErrorType` constant (src/nexus/server.go:104). -/
def handlerErrorTypeInternal : String := "INTERNAL"

/-- `HandlerErrorType` constant (src/nexus/server.go:106). -/
def handlerErrorTypeApplicationError : String := "APPLICATION_ERROR"

/-- `HandlerErrorType` constant (src/nexus/server.go:108). -/
def handlerErrorTypeApplicationTimeout : String := "APPLICATION_TIMEOUT"

/-- `HandlerErrorType` constant (src/nexus/server.go:110). -/
def handlerErrorTypeUnauthenticated : String := "UNAUTHENTICATED"

/-- `HandlerErrorType` constant (src/nexus/server.go:112). -/
def handlerErrorTypeUnauthorized : String := "UNAUTHORIZED"

/-- `HandlerErrorType` constant (src/nexus/server.go:114). -/
def handlerErrorTypeBadRequest : String := "BAD_REQUEST"

/-- `HandlerErrorType` constant (src/nexus/server.go:117). -/
def handlerErrorTypeNotFound : String := "NOT_FOUND"

/-- `HandlerErrorType` constant (src/nexus/server.go:119). -/
def handlerErrorTypeNotImplemented : String := "NOT_IMPLEMENTED"

/-- Modelled from the spec (§3): the wire-level failure record
`Failure \x7b message, metadata?, details? \x7d`, declared outside `src/`.
`details` holds the raw serialised detail bytes (empty when absent). -/
structure Failure where
  message : String
  metadata : List (String × String) := []
  details : String := ""
deriving DecidableEq, Repr

/-- JSON string escaping for the modelled serialiser (the usual escapes for
quote, backslash and common control characters). -/
def jsonEscapeChar (c : Char) : String :=
  if c = '\"' then "\\\""
  else if c = '\\' then "\\\\"
  else if c = '\n' then "\\n"
  else if c = '\t' then "\\t"
  else if c = '\r' then "\\r"
  else String.singleton c

/-- Escape a string for inclusion in a JSON string literal. -/
def jsonEscape (s : String) : String :=
  String.join (s.toList.map jsonEscapeChar)

/-- Render a metadata mapping as a JSON object. -/
def marshalMetadata : List (String × String) → String
  | [] => "\x7b\x7d"
  | kvs =>
    "\x7b" ++
      String.intercalate ","
        (kvs.map (fun kv => "\"" ++ jsonEscape kv.fst ++ "\":\"" ++ jsonEscape kv.snd ++ "\"")) ++
    "\x7d"

/-- Modelled from the spec (§6 Body format): the JSON serialisation of a
`Failure`; `metadata` and `details` are omitted when empty. -/
def Failure.marshalJSON (f : Failure) : String :=
  "\x7b\"message\":\"" ++ jsonEscape f.message ++ "\"" ++
    (if f.metadata = [] then "" else ",\"metadata\":" ++ marshalMetadata f.metadata) ++
    (if f.details = "" then "" else ",\"details\":" ++ f.details) ++
  "\x7d"

/-- Modelled from the spec (§3): `OperationInfo \x7b id, state \x7d`,
declared outside `src/`. -/
structure OperationInfo where
  id : String
  state : String
deriving DecidableEq, Repr

/-- Modelled from the spec (§6 Body format): the JSON serialisation of an
`OperationInfo`. -/
def OperationInfo.marshalJSON (info : OperationInfo) : String :=
  "\x7b\"id\":\"" ++ jsonEscape info.id ++ "\",\"state\":\"" ++ jsonEscape info.state ++ "\"\x7d"

/-- Modelled from the spec (§3): a `Stream` is a byte source with descriptive
headers; the reader is modelled by the byte string it yields.  Declared
outside `src/`. -/
structure Stream where
  header : List (String × String)
  body : String
deriving DecidableEq, Repr

/-- The Go error values that reach the server's failure writer
(src/nexus/server.go): an `UnsuccessfulOperationError`, a `HandlerError`,
the `ErrOperationStillRunning` sentinel, or any other error (identified by
its message).  `errors.As` / `errors.Is` discrimination is modelled by
matching on the constructor. -/
inductive GoError
  | unsuccessful (state : String) (failure : Failure)
  | handlerErr (typ : String) (failure : Option Failure)
  | stillRunning
  | other (msg : String)
deriving DecidableEq, Repr

/-- Is the error neither an `UnsuccessfulOperationError` nor a
`HandlerError`?  These are the errors that take the generic branch of
`writeFailure` (src/nexus/server.go:231). -/
def GoError.isGeneric : GoError → Bool
  | .unsuccessful _ _ => false
  | .handlerErr _ _ => false
  | _ => true

/-- An observable action performed while serving a request: a header set, the
status line, a body write, or a log record (tagged with the logger that
emitted it). -/
inductive Event
  | setHeader (name value : String)
  | writeHeader (status : Nat)
  | writeBody (body : String)
  | logMsg (logger : Logger) (level msg : String)
deriving DecidableEq, Repr

/-- The HTTP status of a trace: the first explicit `writeHeader`, or the
implicit 200 that Go's `net/http` sends when a body is written first (or
nothing is written at all). -/
def statusOf : List Event → Nat
  | [] => 200
  | .writeHeader s :: _ => s
  | .writeBody _ :: _ => 200
  | _ :: rest => statusOf rest

/-- The response body of a trace: the concatenation of all body writes. -/
def bodyOf : List Event → String
  | [] => ""
  | .writeBody b :: rest => b ++ bodyOf rest
  | _ :: rest => bodyOf rest

/-- The effective value of response header `name`: the last `setHeader`
before the response is committed (by an explicit status line or a body
write), as in Go's `net/http`. -/
def headerGet (name : String) : List Event → Option String
  | [] => none
  | .writeHeader _ :: _ => none
  | .writeBody _ :: _ => none
  | .setHeader n v :: rest =>
    match headerGet name rest with
    | some w => some w
    | none => if n = name then some v else none
  | _ :: rest => headerGet name rest

/-- Whether header `name` is set to `value` strictly before the status line
is written. -/
def setBeforeStatus (name value : String) : List Event → Bool
  | [] => false
  | .writeHeader _ :: _ => false
  | .setHeader n v :: rest => (n = name && v = value) || setBeforeStatus name value rest
  | _ :: rest => setBeforeStatus name value rest

/-- The log records of a trace, in order, tagged with the emitting logger. -/
def logsOf : List Event → List (Logger × String × String)
  | [] => []
  | .logMsg lg level msg :: rest => (lg, level, msg) :: logsOf rest
  | _ :: rest => logsOf rest

/-- The tail of `writeFailure` (src/nexus/server.go:238): marshal the
failure if present, set the JSON content type, write the status line, then
write the body.  `json.Marshal` of a `Failure` cannot fail (its fields are
plain strings and maps), so the marshal-error branch (line 241) is
unreachable and not modelled. -/
def writeFinish (failure : Option Failure) (statusCode : Nat) : List Event :=
  match failure with
  | some f =>
    [.setHeader headerContentType contentTypeJSON, .writeHeader statusCode,
      .writeBody f.marshalJSON]
  | none => [.writeHeader statusCode, .writeBody ""]

/-- `baseHTTPHandler.writeFailure` (src/nexus/server.go:187): discriminate
the error as (1) `UnsuccessfulOperationError`, (2) `HandlerError`,
(3) anything else, pick status, headers and failure body accordingly. -/
def writeFailure (logger : Logger) (err : GoError) : List Event :=
  match err with
  | .unsuccessful state failure =>
    if state = operationStateFailed ∨ state = operationStateCanceled then
      .setHeader headerOperationState state :: writeFinish (some failure) statusOperationFailed
    else
      [.logMsg logger "ERROR" "unexpected operation state", .writeHeader 500]
  | .handlerErr typ failure =>
    if typ = handlerErrorTypeOperationCanceled then
      .setHeader headerOperationState operationStateCanceled ::
        writeFinish failure statusOperationFailed
    else if typ = handlerErrorTypeApplicationTimeout then writeFinish failure 521
    else if typ = handlerErrorTypeApplicationError then writeFinish failure 520
    else if typ = handlerErrorTypeBadRequest then writeFinish failure 400
    else if typ = handlerErrorTypeUnauthorized then writeFinish failure 403
    else if typ = handlerErrorTypeUnauthenticated then writeFinish failure 401
    else if typ = handlerErrorTypeNotFound then writeFinish failure 404
    else if typ = handlerErrorTypeNotImplemented then writeFinish failure 501
    else if typ = handlerErrorTypeInternal then writeFinish failure 500
    else
      .logMsg logger "ERROR" "unexpected handler error type" :: writeFinish failure 500
  | _ =>
    .logMsg logger "ERROR" "handler failed" ::
      writeFinish (some { message := "internal server error" }) 500

/-- A payload codec (spec §4.1): `serialize` turns a value into a `Stream` or
fails.  Non-`Stream` Go values are opaque to the server code, so they are
modelled by an index. -/
structure Codec where
  serialize : Nat → Except String Stream

/-- Modelled from the spec (§4.1): the default JSON codec, `DefaultCodec`
declared outside `src/`.  Its behaviour is irrelevant to the verified
properties; it is total and tags the body with the JSON content type. -/
def DefaultCodec : Codec :=
  ⟨fun v => .ok ⟨[(headerContentType, contentTypeJSON)], toString v⟩⟩

/-- A value returned from a user handler (Go `any`): either already a
`*Stream`, or an opaque value to be passed to the codec. -/
inductive HandlerResult
  | stream (s : Stream)
  | value (v : Nat)
deriving Repr

/-- The handler options after the normalisation in `NewHTTPHandler`
(src/nexus/server.go:402): logger, get-result timeout (nanoseconds) and
codec are all populated. -/
structure NormalizedOptions where
  logger : Logger
  getResultTimeout : Int
  codec : Codec

/-- `httpHandler` (src/nexus/server.go:156): the embedded
`baseHTTPHandler.logger` plus the (normalised) options. -/
structure HttpHandler where
  logger : Logger
  options : NormalizedOptions

/-- `httpHandler.writeResult` (src/nexus/server.go:161).  When the result is
a `*Stream` the source evaluates `stream.Reader` (line 164) while the local
variable `stream` is still `nil` — it is only assigned from `s` on line 169
— so the goroutine panics with a nil-pointer dereference before anything is
written; this is modelled as `none`.  Otherwise the codec serialises the
value; on codec failure `writeFailure` is invoked with the wrapped error,
else the stream's headers are copied onto the response and its bytes become
the body. -/
def writeResult (h : HttpHandler) (result : HandlerResult) : Option (List Event) :=
  match result with
  | .stream _ => none
  | .value v =>
    match h.options.codec.serialize v with
    | .error e =>
      some (writeFailure h.logger (.other ("failed to serialize handler result: " ++ e)))
    | .ok stream =>
      some ((stream.header.map fun kv => Event.setHeader kv.fst kv.snd) ++
        [.writeBody stream.body])

/-- `GetOperationResultOptions` as seen by the user handler: the request
headers and the parsed wait duration in nanoseconds (0 when absent). -/
structure GetResultOptions where
  header : List (String × String)
  wait : Int := 0
deriving Repr

/-- The outcome of one call to the user handler's `GetOperationResult`:
its return value, plus whether the (derived) context's `Err()` was non-nil
when the server checked it afterwards (src/nexus/server.go:320). -/
structure HandlerOutcome where
  result : Except GoError HandlerResult
  ctxExpired : Bool

/-- A get-result request after URL routing and path unescaping
(src/nexus/server.go:288-300): the operation name, the operation id, the
raw `wait` query parameter (empty string when absent) and the request
headers. -/
structure GetResultRequest where
  operation : String
  operationID : String
  waitStr : String
  header : List (String × String) := []

/-- The observable result of serving a get-result request: whether the user
handler was invoked, and the response trace (`none` when the request
handler panicked). -/
structure GetResultOutput where
  handlerInvoked : Bool
  response : Option (List Event)

/-- The error/result dispatch at the end of `getOperationResult`
(src/nexus/server.go:318-329): on error, first check `options.Wait > 0 &&
ctx.Err() != nil` (408), then `errors.Is(err, ErrOperationStillRunning)`
(412), else delegate to `writeFailure`; on success delegate to
`writeResult`. -/
def dispatchGetResult (h : HttpHandler) (options : GetResultOptions)
    (outcome : HandlerOutcome) : Option (List Event) :=
  match outcome.result with
  | .error err =>
    if 0 < options.wait ∧ outcome.ctxExpired then
      some [.writeHeader 408]
    else if err = .stillRunning then
      some [.writeHeader statusOperationRunning]
    else
      some (writeFailure h.logger err)
  | .ok result => writeResult h result

/-- `httpHandler.getOperationResult` (src/nexus/server.go:288), embedded
from the point where the URL path has been parsed.  `time.ParseDuration`
(Go standard library) is abstracted as the `parseDuration` argument
returning nanoseconds; the user handler is the `userHandler` argument,
invoked with the parsed options.  A non-empty `wait` query parameter that
fails to parse yields a bad-request failure without invoking the handler
(lines 305-311). -/
def getOperationResult (h : HttpHandler) (parseDuration : String → Option Int)
    (userHandler : String → String → GetResultOptions → HandlerOutcome)
    (req : GetResultRequest) : GetResultOutput :=
  if req.waitStr ≠ "" then
    match parseDuration req.waitStr with
    | none =>
      ⟨false, some (.logMsg h.logger "WARN" "invalid wait duration query parameter" ::
        writeFailure h.logger
          (.handlerErr handlerErrorTypeBadRequest (some { message := "invalid wait query parameter" })))⟩
    | some d =>
      ⟨true, dispatchGetResult h ⟨req.header, d⟩
        (userHandler req.operation req.operationID ⟨req.header, d⟩)⟩
  else
    ⟨true, dispatchGetResult h ⟨req.header, 0⟩
      (userHandler req.operation req.operationID ⟨req.header, 0⟩)⟩

/-- `OperationResponseAsync` (src/nexus/server.go:35). -/
structure OperationResponseAsync where
  operationID : String

/-- `OperationResponseAsync.applyToHTTPResponse` (src/nexus/server.go:39):
marshal `OperationInfo` with the given id and the `running` state, set the
JSON content type, write `201 Created`, write the body.  `json.Marshal` of
an `OperationInfo` (two plain strings) cannot fail, so the error branch
(line 45) is unreachable and not modelled. -/
def OperationResponseAsync.applyToHTTPResponse (r : OperationResponseAsync) : List Event :=
  [.setHeader headerContentType contentTypeJSON, .writeHeader 201,
    .writeBody (OperationInfo.marshalJSON ⟨r.operationID, operationStateRunning⟩)]

/-- `HandlerOptions` (src/nexus/server.go:387) before normalisation: nilable
logger and codec, zero-able timeout. -/
structure HandlerOptions where
  logger : Option Logger := none
  getResultTimeout : Int := 0
  codec : Option Codec := none

/-- Modelled from the spec (§6 Configuration): Go `time.Minute` in
nanoseconds, the default get-result timeout. -/
def timeMinute : Int := 60000000000

/-- `NewHTTPHandler` (src/nexus/server.go:402): normalise the options
(default logger, one-minute timeout, default codec), then construct the
handler whose embedded `baseHTTPHandler` logger is `slog.Default()` —
note the source passes `slog.Default()` there (line 414), not
`options.Logger`.  The route registration is not modelled. -/
def NewHTTPHandler (options : HandlerOptions) : HttpHandler :=
  let logger := match options.logger with
    | none => slogDefault
    | some l => l
  let timeout := if options.getResultTimeout = 0 then timeMinute else options.getResultTimeout
  let codec := match options.codec with
    | none => DefaultCodec
    | some c => c
  { logger := slogDefault
    options := { logger := logger, getResultTimeout := timeout, codec := codec } }

/-! Concrete values used by witnesses and counterexamples. -/

/-- A concrete handler with all-default configuration. -/
def sampleHandler : HttpHandler := ⟨slogDefault, ⟨slogDefault, timeMinute, DefaultCodec⟩⟩

/-- A concrete failure value. -/
def sampleFailure : Failure := { message := "boom" }

/-- A concrete stream value. -/
def sampleStream : Stream := ⟨[(headerContentType, "application/octet-stream")], "payload"⟩

/-! Small trace lemmas: log records do not affect the HTTP-visible parts of a
trace. -/

theorem statusOf_logMsg (lg : Logger) (lvl m : String) (rest : List Event) :
    statusOf (Event.logMsg lg lvl m :: rest) = statusOf rest := rfl

theorem bodyOf_logMsg (lg : Logger) (lvl m : String) (rest : List Event) :
    bodyOf (Event.logMsg lg lvl m :: rest) = bodyOf rest := rfl

theorem headerGet_logMsg (name : String) (lg : Logger) (lvl m : String) (rest : List Event) :
    headerGet name (Event.logMsg lg lvl m :: rest) = headerGet name rest := rfl

/-! ### Claims -/

/-- C2: for every `UnsuccessfulOperationError` whose state is neither
`"failed"` nor `"canceled"`, `writeFailure` logs, responds with status 500,
does not set the `Nexus-Operation-State` header, and writes no body
(src/nexus/server.go:199-205). -/
theorem writeFailure_invalid_state_500 (logger : Logger) (state : String) (failure : Failure)
    (hf : state ≠ operationStateFailed) (hc : state ≠ operationStateCanceled) :
    statusOf (writeFailure logger (.unsuccessful state failure)) = 500 ∧
    headerGet headerOperationState (writeFailure logger (.unsuccessful state failure)) = none ∧
    bodyOf (writeFailure logger (.unsuccessful state failure)) = "" ∧
    logsOf (writeFailure logger (.unsuccessful state failure)) =
      [(logger, "ERROR", "unexpected operation state")] := by
  have hcond : ¬(state = operationStateFailed ∨ state = operationStateCanceled) := by
    rintro (h | h)
    · exact hf h
    · exact hc h
  simp [writeFailure, hcond, statusOf, headerGet, bodyOf, logsOf]

/-- Witness for C2 at the concrete state `"borked"`. -/
theorem writeFailure_invalid_state_500_witness :
    statusOf (writeFailure slogDefault (.unsuccessful "borked" sampleFailure)) = 500 ∧
    headerGet headerOperationState (writeFailure slogDefault (.unsuccessful "borked" sampleFailure)) = none ∧
    bodyOf (writeFailure slogDefault (.unsuccessful "borked" sampleFailure)) = "" ∧
    logsOf (writeFailure slogDefault (.unsuccessful "borked" sampleFailure)) =
      [(slogDefault, "ERROR", "unexpected operation state")] :=
  writeFailure_invalid_state_500 slogDefault "borked" sampleFailure (by decide) (by decide)

/-- C3 (failing input): a `HandlerError` of kind `OPERATION_FAILED` is not
handled by the switch in `writeFailure` (src/nexus/server.go:208-230); it
falls through to the default branch, is logged as an unexpected type, and
the response status is 500 — not the 424 (`statusOperationFailed`) that the
mapping prescribes for the operation-completed-unsuccessfully kinds. -/
theorem writeFailure_operation_failed_kind_gives_500 :
    statusOf (writeFailure slogDefault
      (.handlerErr handlerErrorTypeOperationFailed (some sampleFailure))) = 500 ∧
    logsOf (writeFailure slogDefault
      (.handlerErr handlerErrorTypeOperationFailed (some sampleFailure))) =
      [(slogDefault, "ERROR", "unexpected handler error type")] ∧
    (500 : Nat) ≠ statusOperationFailed := by decide

/-- C4 (failing input): for a handler result that already is a `*Stream`,
`writeResult` dereferences the still-nil local variable `stream`
(src/nexus/server.go:164, `stream.Reader`) before assigning `stream = s`
(line 169), so it panics and writes nothing — it does not pass the stream
through. -/
theorem writeResult_stream_panics :
    writeResult sampleHandler (.stream sampleStream) = none := rfl

/-- C5: for every error that is neither an `UnsuccessfulOperationError` nor
a `HandlerError`, `writeFailure` responds with status 500 and body exactly
the fixed JSON text for the message `internal server error`, independent of
the error, so the original error's message never reaches the body
(src/nexus/server.go:231-236). -/
theorem writeFailure_generic_500 (logger : Logger) (err : GoError)
    (hg : err.isGeneric = true) :
    statusOf (writeFailure logger err) = 500 ∧
    bodyOf (writeFailure logger err) = "\x7b\"message\":\"internal server error\"\x7d" := by
  cases err with
  | unsuccessful state failure => simp [GoError.isGeneric] at hg
  | handlerErr typ failure => simp [GoError.isGeneric] at hg
  | stillRunning =>
    refine ⟨rfl, ?_⟩
    rw [show writeFailure logger .stillRunning =
      Event.logMsg logger "ERROR" "handler failed" ::
        writeFinish (some { message := "internal server error" }) 500 from rfl,
      bodyOf_logMsg]
    decide
  | other m =>
    refine ⟨rfl, ?_⟩
    rw [show writeFailure logger (.other m) =
      Event.logMsg logger "ERROR" "handler failed" ::
        writeFinish (some { message := "internal server error" }) 500 from rfl,
      bodyOf_logMsg]
    decide

/-- Witness for C5 at a concrete generic error. -/
theorem writeFailure_generic_500_witness :
    statusOf (writeFailure slogDefault (.other "oops")) = 500 ∧
    bodyOf (writeFailure slogDefault (.other "oops")) =
      "\x7b\"message\":\"internal server error\"\x7d" :=
  writeFailure_generic_500 slogDefault (.other "oops") (by decide)

/-- C6: for every `UnsuccessfulOperationError` whose state is `"failed"` or
`"canceled"`, `writeFailure` responds with status 424, sets the
`Nexus-Operation-State` header to the state literal, sets the JSON content
type, and writes the failure's JSON serialisation as the body
(src/nexus/server.go:194-253). -/
theorem writeFailure_unsuccessful_terminal (logger : Logger) (state : String) (failure : Failure)
    (hs : state = operationStateFailed ∨ state = operationStateCanceled) :
    statusOf (writeFailure logger (.unsuccessful state failure)) = 424 ∧
    headerGet headerOperationState (writeFailure logger (.unsuccessful state failure)) =
      some state ∧
    headerGet headerContentType (writeFailure logger (.unsuccessful state failure)) =
      some contentTypeJSON ∧
    bodyOf (writeFailure logger (.unsuccessful state failure)) = failure.marshalJSON := by
  simp [writeFailure, hs, writeFinish, statusOf, headerGet, bodyOf, statusOperationFailed,
    headerOperationState, headerContentType, String.append_empty]

/-- Witness for C6 at the concrete state `"canceled"`. -/
theorem writeFailure_unsuccessful_terminal_witness :
    statusOf (writeFailure slogDefault (.unsuccessful "canceled" sampleFailure)) = 424 ∧
    headerGet headerOperationState (writeFailure slogDefault (.unsuccessful "canceled" sampleFailure)) =
      some "canceled" ∧
    headerGet headerContentType (writeFailure slogDefault (.unsuccessful "canceled" sampleFailure)) =
      some contentTypeJSON ∧
    bodyOf (writeFailure slogDefault (.unsuccessful "canceled" sampleFailure)) =
      sampleFailure.marshalJSON :=
  writeFailure_unsuccessful_terminal slogDefault "canceled" sampleFailure (Or.inr rfl)

/-- C7: for every async start outcome, `applyToHTTPResponse` responds
`201 Created` with the JSON content type and a body that is the JSON
serialisation of `OperationInfo` with the given id and state `"running"`
(src/nexus/server.go:39-57). -/
theorem applyToHTTPResponse_async (operationID : String) :
    statusOf (OperationResponseAsync.applyToHTTPResponse ⟨operationID⟩) = 201 ∧
    headerGet headerContentType (OperationResponseAsync.applyToHTTPResponse ⟨operationID⟩) =
      some contentTypeJSON ∧
    bodyOf (OperationResponseAsync.applyToHTTPResponse ⟨operationID⟩) =
      OperationInfo.marshalJSON ⟨operationID, operationStateRunning⟩ := by
  simp [OperationResponseAsync.applyToHTTPResponse, statusOf, headerGet, bodyOf,
    String.append_empty]

/-- The common tail of `writeFailure` emits no log records. -/
theorem logsOf_writeFinish (failure : Option Failure) (statusCode : Nat) :
    logsOf (writeFinish failure statusCode) = [] := by
  cases failure <;> rfl

/-- Every log record emitted by `writeFailure` is tagged with the logger it
was given. -/
theorem logsOf_writeFailure_logger (logger : Logger) (err : GoError)
    (e : Logger × String × String) (he : e ∈ logsOf (writeFailure logger err)) :
    e.fst = logger := by
  cases err with
  | unsuccessful state failure =>
    by_cases hcond : state = operationStateFailed ∨ state = operationStateCanceled
    · simp [writeFailure, hcond, logsOf, logsOf_writeFinish] at he
    · simp [writeFailure, hcond, logsOf] at he
      rw [he]
  | handlerErr typ failure =>
    simp only [writeFailure] at he
    split_ifs at he <;>
      simp [logsOf, logsOf_writeFinish] at he <;>
      rw [he]
  | stillRunning =>
    simp [writeFailure, logsOf, logsOf_writeFinish] at he
    rw [he]
  | other m =>
    simp [writeFailure, logsOf, logsOf_writeFinish] at he
    rw [he]

/-- A matching header set at the head of the trace establishes
`setBeforeStatus`. -/
theorem setBeforeStatus_here (name value : String) (rest : List Event) :
    setBeforeStatus name value (Event.setHeader name value :: rest) = true := by
  simp [setBeforeStatus]

/-- `setBeforeStatus` is preserved by prepending any other header set. -/
theorem setBeforeStatus_skip_set (name value n v : String) (rest : List Event)
    (h : setBeforeStatus name value rest = true) :
    setBeforeStatus name value (Event.setHeader n v :: rest) = true := by
  simp [setBeforeStatus, h]

/-- `setBeforeStatus` is preserved by prepending a log record. -/
theorem setBeforeStatus_skip_log (name value : String) (lg : Logger) (lvl m : String)
    (rest : List Event) (h : setBeforeStatus name value rest = true) :
    setBeforeStatus name value (Event.logMsg lg lvl m :: rest) = true := h

/-- When the failure is present, the tail of `writeFailure` sets the JSON
content type strictly before the status line. -/
theorem setBeforeStatus_writeFinish (f : Failure) (statusCode : Nat) :
    setBeforeStatus headerContentType contentTypeJSON (writeFinish (some f) statusCode) =
      true :=
  setBeforeStatus_here _ _ _

/-- When the failure is absent, the tail of `writeFailure` writes an empty
body. -/
theorem bodyOf_writeFinish_none (statusCode : Nat) :
    bodyOf (writeFinish none statusCode) = "" := rfl

set_option maxHeartbeats 2000000 in
/-- C8: whenever `writeFailure` writes a non-empty body, the
`Content-Type: application/json` header was set strictly before the status
line was written; it never writes a body without first setting that header
(src/nexus/server.go:238-253). -/
theorem writeFailure_header_before_status (logger : Logger) (err : GoError)
    (hb : bodyOf (writeFailure logger err) ≠ "") :
    setBeforeStatus headerContentType contentTypeJSON (writeFailure logger err) = true := by
  cases err with
  | unsuccessful state failure =>
    by_cases hcond : state = operationStateFailed ∨ state = operationStateCanceled
    · have htr : writeFailure logger (.unsuccessful state failure) =
          Event.setHeader headerOperationState state ::
            writeFinish (some failure) statusOperationFailed := by
        simp [writeFailure, hcond]
      rw [htr]
      exact setBeforeStatus_skip_set _ _ _ _ _ (setBeforeStatus_writeFinish _ _)
    · have htr : writeFailure logger (.unsuccessful state failure) =
          [.logMsg logger "ERROR" "unexpected operation state", .writeHeader 500] := by
        simp [writeFailure, hcond]
      rw [htr] at hb
      exact absurd rfl hb
  | handlerErr typ failure =>
    cases failure with
    | some f =>
      show setBeforeStatus headerContentType contentTypeJSON
        (writeFailure logger (.handlerErr typ (some f))) = true
      simp only [writeFailure]
      split_ifs <;>
        first
          | exact setBeforeStatus_writeFinish _ _
          | exact setBeforeStatus_skip_set _ _ _ _ _ (setBeforeStatus_writeFinish _ _)
          | exact setBeforeStatus_skip_log _ _ _ _ _ _ (setBeforeStatus_writeFinish _ _)
    | none =>
      exfalso
      apply hb
      simp only [writeFailure]
      split_ifs <;>
        simp [bodyOf_writeFinish_none, bodyOf]
  | stillRunning =>
    exact setBeforeStatus_skip_log _ _ _ _ _ _ (setBeforeStatus_writeFinish _ _)
  | other m =>
    exact setBeforeStatus_skip_log _ _ _ _ _ _ (setBeforeStatus_writeFinish _ _)

/-- Witness for C8 at a concrete error with a non-empty body. -/
theorem writeFailure_header_before_status_witness :
    setBeforeStatus headerContentType contentTypeJSON
      (writeFailure slogDefault (.other "kaboom")) = true :=
  writeFailure_header_before_status slogDefault (.other "kaboom") (by decide)

/-- C9: for every get-result request whose `wait` query parameter is present
but does not parse as a duration, the server responds 400 with the
bad-request failure's JSON body and the user handler is not invoked
(src/nexus/server.go:303-316). -/
theorem getOperationResult_invalid_wait (h : HttpHandler) (parse : String → Option Int)
    (userHandler : String → String → GetResultOptions → HandlerOutcome)
    (req : GetResultRequest)
    (hne : req.waitStr ≠ "") (hp : parse req.waitStr = none) :
    (getOperationResult h parse userHandler req).handlerInvoked = false ∧
    statusOf ((getOperationResult h parse userHandler req).response.getD []) = 400 ∧
    bodyOf ((getOperationResult h parse userHandler req).response.getD []) =
      Failure.marshalJSON { message := "invalid wait query parameter" } := by
  have hred : getOperationResult h parse userHandler req =
      ⟨false, some (.logMsg h.logger "WARN" "invalid wait duration query parameter" ::
        writeFailure h.logger (.handlerErr handlerErrorTypeBadRequest
          (some { message := "invalid wait query parameter" })))⟩ := by
    simp [getOperationResult, hne, hp]
  rw [hred]
  refine ⟨rfl, ?_, ?_⟩ <;>
    simp [writeFailure, writeFinish, handlerErrorTypeBadRequest,
      handlerErrorTypeOperationCanceled, handlerErrorTypeApplicationTimeout,
      handlerErrorTypeApplicationError, statusOf, bodyOf, String.append_empty]

/-- Witness for C9: a concrete request whose `wait` parameter fails to
parse. -/
theorem getOperationResult_invalid_wait_witness :
    (getOperationResult sampleHandler (fun _ => none)
        (fun _ _ _ => ⟨.error .stillRunning, false⟩) ⟨"op", "id", "bogus", []⟩).handlerInvoked
      = false ∧
    statusOf ((getOperationResult sampleHandler (fun _ => none)
        (fun _ _ _ => ⟨.error .stillRunning, false⟩) ⟨"op", "id", "bogus", []⟩).response.getD [])
      = 400 ∧
    bodyOf ((getOperationResult sampleHandler (fun _ => none)
        (fun _ _ _ => ⟨.error .stillRunning, false⟩) ⟨"op", "id", "bogus", []⟩).response.getD [])
      = Failure.marshalJSON { message := "invalid wait query parameter" } :=
  getOperationResult_invalid_wait sampleHandler (fun _ => none)
    (fun _ _ _ => ⟨.error .stillRunning, false⟩) ⟨"op", "id", "bogus", []⟩
    (by decide) rfl

/-- A concrete duration parser accepting only the literal `"1s"`. -/
def parseOneSecond : String → Option Int :=
  fun s => if s = "1s" then some 1000000000 else none

/-- A concrete user handler that returns `ErrOperationStillRunning` after
its derived context has expired (the behaviour the `Handler` documentation
recommends, src/nexus/server.go:80-82). -/
def stillRunningExpiredHandler : String → String → GetResultOptions → HandlerOutcome :=
  fun _ _ _ => ⟨.error .stillRunning, true⟩

/-- A concrete user handler that returns `ErrOperationStillRunning` while
its derived context is still live. -/
def stillRunningFreshHandler : String → String → GetResultOptions → HandlerOutcome :=
  fun _ _ _ => ⟨.error .stillRunning, false⟩

/-- A concrete get-result request with `wait=1s`. -/
def waitOneSecondRequest : GetResultRequest := ⟨"op", "id", "1s", []⟩

/-- C1 (counterexample): a get-result request with a positive wait whose
handler returns `ErrOperationStillRunning` is answered with 408, not 412,
when the derived context has expired, because `getOperationResult` checks
`ctx.Err()` before `errors.Is(err, ErrOperationStillRunning)`
(src/nexus/server.go:320-323); so returning `ErrOperationStillRunning`
does not always produce status 412. -/
theorem getOperationResult_stillRunning_expired_408 :
    parseOneSecond "1s" = some 1000000000 ∧
    (0 : Int) < 1000000000 ∧
    (stillRunningExpiredHandler "op" "id" ⟨[], 1000000000⟩).result =
      Except.error GoError.stillRunning ∧
    (getOperationResult sampleHandler parseOneSecond stillRunningExpiredHandler
      waitOneSecondRequest).response = some [Event.writeHeader 408] ∧
    statusOf [Event.writeHeader 408] ≠ statusOperationRunning := by
  refine ⟨rfl, by decide, rfl, ?_, by decide⟩
  rfl

/-- C1 (amended): for every get-result request with a positive parsed wait,
the user handler is invoked and: if it returns an error while the derived
server-side context has expired, the response status is 408 Request
Timeout; if it returns `ErrOperationStillRunning` and the context has not
expired, the response status is 412 (still running); and a successful
return is written via `writeResult` (src/nexus/server.go:303-330). -/
theorem getOperationResult_wait_dispatch (h : HttpHandler) (parse : String → Option Int)
    (userHandler : String → String → GetResultOptions → HandlerOutcome)
    (req : GetResultRequest) (d : Int)
    (hne : req.waitStr ≠ "") (hp : parse req.waitStr = some d) (hd : 0 < d) :
    (getOperationResult h parse userHandler req).handlerInvoked = true ∧
    (∀ e, (userHandler req.operation req.operationID ⟨req.header, d⟩).result = Except.error e →
      (userHandler req.operation req.operationID ⟨req.header, d⟩).ctxExpired = true →
      (getOperationResult h parse userHandler req).response = some [Event.writeHeader 408]) ∧
    ((userHandler req.operation req.operationID ⟨req.header, d⟩).result =
        Except.error GoError.stillRunning →
      (userHandler req.operation req.operationID ⟨req.header, d⟩).ctxExpired = false →
      (getOperationResult h parse userHandler req).response =
        some [Event.writeHeader statusOperationRunning]) ∧
    (∀ r, (userHandler req.operation req.operationID ⟨req.header, d⟩).result = Except.ok r →
      (getOperationResult h parse userHandler req).response = writeResult h r) := by
  have hred : getOperationResult h parse userHandler req =
      ⟨true, dispatchGetResult h ⟨req.header, d⟩
        (userHandler req.operation req.operationID ⟨req.header, d⟩)⟩ := by
    simp [getOperationResult, hne, hp]
  rw [hred]
  refine ⟨rfl, ?_, ?_, ?_⟩
  · intro e he hctx
    simp [dispatchGetResult, he, hctx, hd]
  · intro he hctx
    simp [dispatchGetResult, he, hctx]
  · intro r hr
    simp [dispatchGetResult, hr]

/-- Witness for the C1 amended theorem: with `wait=1s` and a handler that
returns `ErrOperationStillRunning` under a live context, the response is
412. -/
theorem getOperationResult_wait_dispatch_witness :
    (getOperationResult sampleHandler parseOneSecond stillRunningFreshHandler
      waitOneSecondRequest).response = some [Event.writeHeader statusOperationRunning] :=
  (getOperationResult_wait_dispatch sampleHandler parseOneSecond stillRunningFreshHandler
    waitOneSecondRequest 1000000000 (by decide) rfl (by decide)).2.2.1 rfl rfl

/-- C10: `NewHTTPHandler` stores `slog.Default()` as the handler's logger
for every options value (src/nexus/server.go:414); the configured `Logger`
field is normalised on the options copy (line 403) but the failure writer
logs through the handler's own logger, so every record it emits is tagged
with the default logger, never the configured one. -/
theorem newHTTPHandler_default_logger (options : HandlerOptions) :
    (NewHTTPHandler options).logger = slogDefault ∧
    (NewHTTPHandler options).options.logger =
      (match options.logger with
        | none => slogDefault
        | some l => l) ∧
    (∀ err e, e ∈ logsOf (writeFailure (NewHTTPHandler options).logger err) →
      e.fst = slogDefault) := by
  refine ⟨rfl, rfl, ?_⟩
  intro err e he
  exact logsOf_writeFailure_logger _ err e he

/-- Witness for C10 at a non-default configured logger. -/
theorem newHTTPHandler_default_logger_witness :
    (NewHTTPHandler ⟨some ⟨7⟩, 0, none⟩).logger = slogDefault ∧
    (slogDefault, "ERROR", "handler failed").fst = slogDefault :=
  ⟨(newHTTPHandler_default_logger ⟨some ⟨7⟩, 0, none⟩).1,
    (newHTTPHandler_default_logger ⟨some ⟨7⟩, 0, none⟩).2.2 (.other "cause")
      (slogDefault, "ERROR", "handler failed") (by decide)⟩

end NexusVerify
